import Mathlib

/-
Verification of the action-execution sandbox of agent/driver.py.

The embedding models the module as pure functions over an explicit
filesystem state.  Paths are strings relative to the project root
(ROOT_DIR in the source); the filesystem maps each path to the content of
the file stored there, if any.  External effects that the sandbox merely
consumes are oracles passed as parameters:

  * Exec      — subprocess execution (subprocess.run inside run_command):
                given the current file contents and a command line, the
                stdout, stderr and return code of the process.  The
                modeled commands (py_compile, the smoke backtest) do not
                rewrite the files the claims observe, so execution leaves
                the modeled filesystem unchanged.
  * OSOracle  — os.listdir, os.makedirs and open-for-write, each of which
                may fail with an OS error message.  Directory structure
                itself is not observed by any claim, so a successful
                makedirs has no visible effect on the file map.
  * resolve   — Path.resolve: canonicalisation of a path string.
  * ts        — the UTC timestamp string datetime.utcnow().strftime
                produces for the backup file name.

Python string operations used by the dispatcher (str.strip, str.startswith,
sorted, os.path.dirname) are re-implemented on lists of characters so that
all definitions reduce inside the kernel.
-/

set_option maxRecDepth 16384

namespace Driver

/-- Content-addressed filesystem: a path maps to the content of the file at
that path, or none when no such file exists. -/
abbrev FS : Type := String → Option String

/-- Overwrite (or create) the file at path p with content c. -/
def setFile (fs : FS) (p c : String) : FS :=
  fun q => if q = p then some c else fs q

/-- Outcome of one subprocess run, as captured by run_command in the
source: stdout, stderr and the return code. -/
structure CmdResult where
  stdout : String
  stderr : String
  returncode : Int
deriving Repr, DecidableEq

/-- Subprocess oracle: file contents and a command line determine the
outcome of running the command. -/
abbrev Exec : Type := FS → String → CmdResult

/-- Model of run_command (driver.py lines 75-88): runs the command via the
subprocess oracle and captures stdout, stderr and the return code. -/
def run_command (exec : Exec) (fs : FS) (command : String) : CmdResult :=
  exec fs command

/-- Python str.strip: remove leading and trailing whitespace. -/
def pyStrip (s : String) : String :=
  ⟨((s.data.dropWhile Char.isWhitespace).reverse.dropWhile Char.isWhitespace).reverse⟩

/-- Python str.startswith: the second string is a prefix of the first. -/
def pyStartsWith (s pre : String) : Bool :=
  pre.data.isPrefixOf s.data

/-- Lexicographic comparison of character lists by code point, the order
Python uses to sort strings. -/
def leChars : List Char → List Char → Bool
  | [], _ => true
  | _ :: _, [] => false
  | a :: as, b :: bs => if a < b then true else if b < a then false else leChars as bs

/-- Python ≤ on strings: lexicographic by code point. -/
def strLe (a b : String) : Bool :=
  leChars a.data b.data

/-- Insert a string into an already sorted list. -/
def insertSorted (s : String) : List String → List String
  | [] => [s]
  | t :: ts => if strLe s t then s :: t :: ts else t :: insertSorted s ts

/-- Python sorted on a list of strings: insertion sort under strLe. -/
def sortStrings : List String → List String
  | [] => []
  | s :: ss => insertSorted s (sortStrings ss)

/-- Containment of sub as a contiguous sublist. -/
def listHasSub (sub : List Char) : List Char → Bool
  | [] => sub.isEmpty
  | c :: cs => sub.isPrefixOf (c :: cs) || listHasSub sub cs

/-- Containment of sub as a substring of s. -/
def hasSub (s sub : String) : Bool :=
  listHasSub sub.data s.data

/-- Model of os.path.dirname for the slash-separated relative paths the
driver handles: everything before the last slash, trailing slashes
stripped; the empty string when the path has no slash. -/
def dirname (p : String) : String :=
  match p.data.reverse.dropWhile (fun c => c ≠ '/') with
  | [] => ""
  | _ :: rest => ⟨(rest.dropWhile (fun c => c = '/')).reverse⟩

/-- Python str of an optional string field: None prints as None. -/
def pyStr : Option String → String
  | none => "None"
  | some s => s

-- ===================== configuration constants (driver.py 61-63) ==========

/-- ALLOW_RUN_COMMANDS in the source configuration. -/
def ALLOW_RUN_COMMANDS : Bool := true

/-- ALLOW_MODIFY_ENGINE in the source configuration. -/
def ALLOW_MODIFY_ENGINE : Bool := true

/-- The one protected file, engine/backtest.py, as a root-relative path. -/
def ENGINE_PATH : String := "engine/backtest.py"

/-- The syntax-check command of the mutation guard (driver.py line 139). -/
def COMPILE_CMD : String := "python -m py_compile engine/backtest.py"

/-- The smoke-test command of the mutation guard (driver.py line 155). -/
def SMOKE_CMD : String := "python engine/backtest.py strategies/example_ma_crossover.py"

/-- Backup file name for a mutation attempt at timestamp ts
(driver.py lines 132-133). -/
def backupName (ts : String) : String :=
  "engine/backtest_backup_" ++ ts ++ ".py"

/-- The command whitelist of the run_command handler
(driver.py lines 344-351). -/
def allowed_prefixes : List String :=
  [ "python engine/fetch_data.py"
  , "python engine/backtest.py"
  , "python engine/analyze_runs.py"
  , "python engine/plot_strategy.py"
  , "python engine/optimize_params.py"
  , "pip install -r requirements.txt" ]

/-- Fixed part of the blocked-command diagnostic (driver.py lines 361-369);
the two-character sequences backslash n are literal in the Python source,
which writes them as escaped backslashes inside a plain string. -/
def blockedCommandHeader : String :=
  "Comando bloqueado. O driver só permite atualmente:\\n" ++
  "- python engine/fetch_data.py ...\\n" ++
  "- python engine/backtest.py ...\\n" ++
  "- python engine/analyze_runs.py ...\\n" ++
  "- python engine/plot_strategy.py ...\\n" ++
  "- python engine/optimize_params.py ...\\n" ++
  "- pip install -r requirements.txt\\n" ++
  "Comando solicitado: "

/-- The full blocked-command diagnostic, naming the requested command. -/
def blockedCommandMsg (command : String) : String :=
  blockedCommandHeader ++ command

-- ===================== the mutation guard (driver.py 102-177) =============

/-- Result dictionary produced by safe_modify_engine_backtest: the keys the
source ever sets, absent keys modeled as none. -/
structure GuardResult where
  rtype : String := "write_file"
  path : String
  status : String
  stage : Option String := none
  error : Option String := none
  backup_path : Option String := none
  compile_result : Option CmdResult := none
  smoke_result : Option CmdResult := none
deriving Repr, DecidableEq

/-- Filesystem after the snapshot and write steps of the guard: the backup
file holds the original content and the protected file holds the proposed
content (driver.py lines 132-136). -/
def stagedFS (ts : String) (fs : FS) (original new_content : String) : FS :=
  setFile (setFile fs (backupName ts) original) ENGINE_PATH new_content

/-- Model of safe_modify_engine_backtest (driver.py lines 102-177): path
validation, existence check, backup, write, compile check, smoke test, and
restoration of the original content when either check fails.  Returns the
result dictionary together with the filesystem after the call. -/
def safe_modify_engine_backtest (resolve : String → String) (exec : Exec)
    (ts : String) (fs : FS) (path : String) (new_content : String) :
    GuardResult × FS :=
  if resolve path ≠ resolve ENGINE_PATH then
    ({ path := path, status := "blocked",
       error := some "safe_modify_engine_backtest chamado para arquivo que não é engine/backtest.py." },
     fs)
  else
    match fs ENGINE_PATH with
    | none =>
        ({ path := ENGINE_PATH, status := "blocked",
           error := some "engine/backtest.py não encontrado para modificação segura." },
         fs)
    | some original_content =>
        let fs2 := stagedFS ts fs original_content new_content
        let compile_result := run_command exec fs2 COMPILE_CMD
        if compile_result.returncode ≠ 0 then
          ({ path := ENGINE_PATH, status := "reverted", stage := some "compile",
             error := some "Falha na compilação de engine/backtest.py; restauração do original.",
             backup_path := some (backupName ts),
             compile_result := some compile_result },
           setFile fs2 ENGINE_PATH original_content)
        else
          let smoke_result := run_command exec fs2 SMOKE_CMD
          if smoke_result.returncode ≠ 0 then
            ({ path := ENGINE_PATH, status := "reverted", stage := some "smoke_test",
               error := some "Backtest de fumaça falhou; restauração do original.",
               backup_path := some (backupName ts),
               smoke_result := some smoke_result },
             setFile fs2 ENGINE_PATH original_content)
          else
            ({ path := ENGINE_PATH, status := "ok",
               backup_path := some (backupName ts),
               compile_result := some compile_result,
               smoke_result := some smoke_result },
             fs2)

-- ===================== actions and dispatch (driver.py 179-399) ===========

/-- One decoded action from the model: a JSON object whose relevant fields
are strings when present (type, path, content, command). -/
structure Action where
  type : Option String := none
  path : Option String := none
  content : Option String := none
  command : Option String := none
deriving Repr, DecidableEq

/-- One result dictionary appended by execute_actions; keys a branch does
not set are modeled as none. -/
structure DResult where
  rtype : String
  path : Option String := none
  status : Option String := none
  error : Option String := none
  reason : Option String := none
  items : Option (List String) := none
  content : Option String := none
  message : Option String := none
  command : Option String := none
  returncode : Option Int := none
  stdout : Option String := none
  stderr : Option String := none
  stage : Option String := none
  backup_path : Option String := none
  raw_action : Option Action := none
deriving Repr, DecidableEq

/-- A Python exception escaping execute_actions. -/
inductive PyExc where
  | typeError (msg : String)
deriving Repr, DecidableEq

/-- OS oracles for the fallible filesystem calls the dispatcher makes:
os.listdir (entries of a directory, or an error message), os.makedirs with
exist_ok (some error message when it raises, none on success), and opening
a path for writing (some error message when open or write raises). -/
structure OSOracle where
  listdir : FS → String → Except String (List String)
  mkdirs : FS → String → Option String
  openW : FS → String → Option String

/-- Message of the AttributeError raised when safe_modify_engine_backtest
receives the raw path field from the dispatcher: its first operation,
path.resolve at driver.py line 114, fails because the value is a plain
string or None rather than a Path.  The handler at lines 307-315 converts
it to the error result. -/
def attributeErrorMsg : Option String → String
  | none => "NoneType object has no attribute resolve"
  | some _ => "str object has no attribute resolve"

/-- The modify_engine dispatch result when the capability is enabled: the
guard call raises AttributeError before touching the filesystem and the
except-handler records the message (driver.py lines 293-315). -/
def modifyEngineErrorResult (a : Action) : DResult :=
  { rtype := "modify_engine", path := a.path, status := some "error",
    message := some (attributeErrorMsg a.path) }

/-- Result name for an unknown action type: the falsy types None and the
empty string print as unknown (driver.py line 392). -/
def unknownTypeName : Option String → String
  | none => "unknown"
  | some t => if t = "" then "unknown" else t

/-- The unknown-action error result (driver.py lines 389-397). -/
def unknownResult (a : Action) : DResult :=
  { rtype := unknownTypeName a.type, status := some "error",
    error := some ("Ação desconhecida: " ++ pyStr a.type),
    raw_action := some a }

/-- Dispatch of one action: the body of the for-loop of execute_actions
(driver.py lines 192-397), as a function from the action and the current
filesystem to either the appended result with the new filesystem, or the
Python exception that escapes the loop. -/
def dispatchOne (allow_run_commands allow_modify_engine : Bool)
    (os : OSOracle) (fs : FS) (action : Action) :
    Except PyExc (DResult × FS) :=
  if action.type = some "list_dir" then
    let path := action.path.getD "."
    match os.listdir fs path with
    | .ok items =>
        .ok ({ rtype := "list_dir", path := some path,
               items := some (sortStrings items) }, fs)
    | .error e =>
        .ok ({ rtype := "list_dir", path := some path, error := some e }, fs)
  else if action.type = some "read_file" then
    match action.path with
    | none => .ok ({ rtype := "read_file", error := some "missing path" }, fs)
    | some p =>
        if p = "" then
          .ok ({ rtype := "read_file", error := some "missing path" }, fs)
        else
          match fs p with
          | some c =>
              .ok ({ rtype := "read_file", path := some p, content := some c }, fs)
          | none =>
              .ok ({ rtype := "read_file", path := some p,
                     error := some ("No such file or directory: " ++ p) }, fs)
  else if action.type = some "write_file" then
    match action.path with
    | none => .ok ({ rtype := "write_file", error := some "missing path" }, fs)
    | some p =>
        if p = "" then
          .ok ({ rtype := "write_file", error := some "missing path" }, fs)
        else
          match os.mkdirs fs (dirname p) with
          | some e =>
              .ok ({ rtype := "write_file", path := some p, error := some e }, fs)
          | none =>
              match os.openW fs p with
              | some e =>
                  .ok ({ rtype := "write_file", path := some p, error := some e }, fs)
              | none =>
                  .ok ({ rtype := "write_file", path := some p, status := some "ok" },
                       setFile fs p (action.content.getD ""))
  else if action.type = some "modify_engine" then
    if allow_modify_engine = false then
      .ok ({ rtype := "modify_engine", status := some "blocked",
             reason := some "ALLOW_MODIFY_ENGINE=False no driver.py" }, fs)
    else
      .ok (modifyEngineErrorResult action, fs)
  else if action.type = some "run_command" then
    let command := pyStrip (action.command.getD "")
    if command = "" then
      .ok ({ rtype := "run_command", status := some "error",
             error := some "empty command" }, fs)
    else if allow_run_commands = false then
      .ok ({ rtype := "run_command", command := some command, status := some "blocked",
             error := some "Execução de comandos desativada (ALLOW_RUN_COMMANDS=False)." },
           fs)
    else if (allowed_prefixes.any (fun p => pyStartsWith command p)) = false then
      .ok ({ rtype := "run_command", command := some command, status := some "blocked",
             error := some (blockedCommandMsg command) }, fs)
    else
      .error (PyExc.typeError "run_command() got an unexpected keyword argument cwd")
  else
    .ok (unknownResult action, fs)

/-- Model of execute_actions (driver.py lines 179-399): the loop over the
action list, collecting one result per action, with an escaping exception
aborting the rest of the batch. -/
def execute_actions (allow_run_commands allow_modify_engine : Bool)
    (os : OSOracle) (fs : FS) :
    List Action → Except PyExc (List DResult × FS)
  | [] => .ok ([], fs)
  | action :: rest =>
    match dispatchOne allow_run_commands allow_modify_engine os fs action with
    | .error e => .error e
    | .ok (r, fs1) =>
        match execute_actions allow_run_commands allow_modify_engine os fs1 rest with
        | .error e => .error e
        | .ok (rs, fs2) => .ok (r :: rs, fs2)


-- ===================== projection helpers and concrete instances ==========

/-- The exception, if any, escaping a single dispatch. -/
def errOf : Except PyExc (DResult × FS) → Option PyExc
  | .error e => some e
  | .ok _ => none

/-- The result dictionary of a successful single dispatch. -/
def resOf : Except PyExc (DResult × FS) → Option DResult
  | .error _ => none
  | .ok (r, _) => some r

/-- The exception, if any, escaping a batch. -/
def batchErr : Except PyExc (List DResult × FS) → Option PyExc
  | .error e => some e
  | .ok _ => none

/-- A trivial OS oracle whose calls all succeed. -/
def osNoop : OSOracle :=
  { listdir := fun _ _ => .ok [], mkdirs := fun _ _ => none, openW := fun _ _ => none }

/-- An OS oracle listing the working directory as two entries. -/
def osList : OSOracle :=
  { listdir := fun _ p => if p = "." then .ok ["b", "a"] else .error "err",
    mkdirs := fun _ _ => none, openW := fun _ _ => none }

/-- An OS oracle whose makedirs call raises. -/
def osMkdirFail : OSOracle :=
  { listdir := fun _ _ => .error "err",
    mkdirs := fun _ _ => some "mkdir boom", openW := fun _ _ => none }

/-- An OS oracle whose open-for-write call raises. -/
def osOpenFail : OSOracle :=
  { listdir := fun _ _ => .error "err",
    mkdirs := fun _ _ => none, openW := fun _ _ => some "open boom" }

/-- A filesystem holding only the protected file. -/
def fsWithEngine : FS :=
  fun p => if p = ENGINE_PATH then some "orig" else none

/-- A subprocess oracle on which every command fails. -/
def execFailAll : Exec :=
  fun _ _ => { stdout := "", stderr := "boom", returncode := 1 }

/-- A subprocess oracle on which only the smoke test fails. -/
def execSmokeFail : Exec :=
  fun _ c => if c = SMOKE_CMD then { stdout := "", stderr := "smoke fail", returncode := 1 }
             else { stdout := "", stderr := "", returncode := 0 }

/-- A subprocess oracle on which every command succeeds. -/
def execAllOk : Exec :=
  fun _ _ => { stdout := "ok", stderr := "", returncode := 0 }

/-- The empty filesystem. -/
def fsEmpty : FS := fun _ => none

/-- A whitelisted run_command action. -/
def runBacktestAction : Action :=
  { type := some "run_command",
    command := some "python engine/backtest.py strategies/example_ma_crossover.py" }

/-- A list_dir action on the working directory. -/
def listDotAction : Action := { type := some "list_dir", path := some "." }

/-- The backup file never shadows the protected file: their names differ. -/
theorem backupName_ne_engine (ts : String) : backupName ts ≠ ENGINE_PATH := by
  intro h
  have h2 := congrArg String.length h
  simp only [backupName, ENGINE_PATH, String.length_append] at h2
  have e1 : ("engine/backtest_backup_" : String).length = 23 := by decide
  have e2 : (".py" : String).length = 3 := by decide
  have e3 : ("engine/backtest.py" : String).length = 18 := by decide
  omega

/-- C1: when the requested path resolves to the protected file, the file
exists, and the compile check or the smoke test exits nonzero on the staged
content, safe_modify_engine_backtest restores the protected file to its
pre-call content, leaves a backup file holding the pre-call content, and
returns a reverted result carrying the backup path and the stage compile or
smoke_test according to which check failed. -/
theorem C1_failed_checks_revert (resolve : String → String) (exec : Exec)
    (ts : String) (fs : FS) (path new_content original : String)
    (hres : resolve path = resolve ENGINE_PATH)
    (horig : fs ENGINE_PATH = some original)
    (hfail :
      (exec (stagedFS ts fs original new_content) COMPILE_CMD).returncode ≠ 0 ∨
      ((exec (stagedFS ts fs original new_content) COMPILE_CMD).returncode = 0 ∧
       (exec (stagedFS ts fs original new_content) SMOKE_CMD).returncode ≠ 0)) :
    (safe_modify_engine_backtest resolve exec ts fs path new_content).2 ENGINE_PATH
        = some original ∧
    (safe_modify_engine_backtest resolve exec ts fs path new_content).2 (backupName ts)
        = some original ∧
    (safe_modify_engine_backtest resolve exec ts fs path new_content).1.status
        = "reverted" ∧
    (safe_modify_engine_backtest resolve exec ts fs path new_content).1.backup_path
        = some (backupName ts) ∧
    (((exec (stagedFS ts fs original new_content) COMPILE_CMD).returncode ≠ 0 ∧
      (safe_modify_engine_backtest resolve exec ts fs path new_content).1.stage
        = some "compile") ∨
     ((exec (stagedFS ts fs original new_content) COMPILE_CMD).returncode = 0 ∧
      (safe_modify_engine_backtest resolve exec ts fs path new_content).1.stage
        = some "smoke_test")) := by
  rcases hfail with hc | ⟨hcok, hs⟩
  · simp [safe_modify_engine_backtest, hres, horig, run_command, hc]
    simp [setFile, stagedFS, backupName_ne_engine ts]
  · simp [safe_modify_engine_backtest, hres, horig, run_command, hcok, hs]
    simp [setFile, stagedFS, backupName_ne_engine ts]

/-- Witness for C1 at a concrete failing compile check: both hypotheses and
the conclusion instantiated at an executable input. -/
theorem C1_witness :
    (id ENGINE_PATH : String) = id ENGINE_PATH ∧
    fsWithEngine ENGINE_PATH = some "orig" ∧
    ((execFailAll (stagedFS "20240101_000000" fsWithEngine "orig" "new") COMPILE_CMD).returncode ≠ 0 ∨
     ((execFailAll (stagedFS "20240101_000000" fsWithEngine "orig" "new") COMPILE_CMD).returncode = 0 ∧
      (execFailAll (stagedFS "20240101_000000" fsWithEngine "orig" "new") SMOKE_CMD).returncode ≠ 0)) ∧
    ((safe_modify_engine_backtest id execFailAll "20240101_000000" fsWithEngine ENGINE_PATH "new").2 ENGINE_PATH
        = some "orig" ∧
     (safe_modify_engine_backtest id execFailAll "20240101_000000" fsWithEngine ENGINE_PATH "new").2
        (backupName "20240101_000000") = some "orig" ∧
     (safe_modify_engine_backtest id execFailAll "20240101_000000" fsWithEngine ENGINE_PATH "new").1.status
        = "reverted" ∧
     (safe_modify_engine_backtest id execFailAll "20240101_000000" fsWithEngine ENGINE_PATH "new").1.backup_path
        = some (backupName "20240101_000000") ∧
     (((execFailAll (stagedFS "20240101_000000" fsWithEngine "orig" "new") COMPILE_CMD).returncode ≠ 0 ∧
       (safe_modify_engine_backtest id execFailAll "20240101_000000" fsWithEngine ENGINE_PATH "new").1.stage
          = some "compile") ∨
      ((execFailAll (stagedFS "20240101_000000" fsWithEngine "orig" "new") COMPILE_CMD).returncode = 0 ∧
       (safe_modify_engine_backtest id execFailAll "20240101_000000" fsWithEngine ENGINE_PATH "new").1.stage
          = some "smoke_test"))) :=
  ⟨rfl, rfl, Or.inl (by decide),
    C1_failed_checks_revert id execFailAll "20240101_000000" fsWithEngine ENGINE_PATH "new" "orig"
      rfl rfl (Or.inl (by decide))⟩

/-- C3: when the requested path resolves to the protected file, the file
exists, and both the compile check and the smoke test exit zero on the
staged content, the protected file ends up holding the proposed content and
the result is ok, carrying the backup path and both check outputs. -/
theorem C3_passing_checks_commit (resolve : String → String) (exec : Exec)
    (ts : String) (fs : FS) (path new_content original : String)
    (hres : resolve path = resolve ENGINE_PATH)
    (horig : fs ENGINE_PATH = some original)
    (hc : (exec (stagedFS ts fs original new_content) COMPILE_CMD).returncode = 0)
    (hs : (exec (stagedFS ts fs original new_content) SMOKE_CMD).returncode = 0) :
    (safe_modify_engine_backtest resolve exec ts fs path new_content).2 ENGINE_PATH
        = some new_content ∧
    (safe_modify_engine_backtest resolve exec ts fs path new_content).2 (backupName ts)
        = some original ∧
    (safe_modify_engine_backtest resolve exec ts fs path new_content).1.status = "ok" ∧
    (safe_modify_engine_backtest resolve exec ts fs path new_content).1.backup_path
        = some (backupName ts) ∧
    (safe_modify_engine_backtest resolve exec ts fs path new_content).1.compile_result
        = some (exec (stagedFS ts fs original new_content) COMPILE_CMD) ∧
    (safe_modify_engine_backtest resolve exec ts fs path new_content).1.smoke_result
        = some (exec (stagedFS ts fs original new_content) SMOKE_CMD) := by
  simp [safe_modify_engine_backtest, hres, horig, run_command, hc, hs]
  simp [setFile, stagedFS, backupName_ne_engine ts]

/-- Witness for C3: a concrete mutation attempt on which both checks pass. -/
theorem C3_witness :
    (id ENGINE_PATH : String) = id ENGINE_PATH ∧
    fsWithEngine ENGINE_PATH = some "orig" ∧
    (execAllOk (stagedFS "20240101_000000" fsWithEngine "orig" "new") COMPILE_CMD).returncode = 0 ∧
    (execAllOk (stagedFS "20240101_000000" fsWithEngine "orig" "new") SMOKE_CMD).returncode = 0 ∧
    ((safe_modify_engine_backtest id execAllOk "20240101_000000" fsWithEngine ENGINE_PATH "new").2 ENGINE_PATH
        = some "new" ∧
     (safe_modify_engine_backtest id execAllOk "20240101_000000" fsWithEngine ENGINE_PATH "new").2
        (backupName "20240101_000000") = some "orig" ∧
     (safe_modify_engine_backtest id execAllOk "20240101_000000" fsWithEngine ENGINE_PATH "new").1.status = "ok" ∧
     (safe_modify_engine_backtest id execAllOk "20240101_000000" fsWithEngine ENGINE_PATH "new").1.backup_path
        = some (backupName "20240101_000000") ∧
     (safe_modify_engine_backtest id execAllOk "20240101_000000" fsWithEngine ENGINE_PATH "new").1.compile_result
        = some (execAllOk (stagedFS "20240101_000000" fsWithEngine "orig" "new") COMPILE_CMD) ∧
     (safe_modify_engine_backtest id execAllOk "20240101_000000" fsWithEngine ENGINE_PATH "new").1.smoke_result
        = some (execAllOk (stagedFS "20240101_000000" fsWithEngine "orig" "new") SMOKE_CMD)) :=
  ⟨rfl, rfl, by decide, by decide,
    C3_passing_checks_commit id execAllOk "20240101_000000" fsWithEngine ENGINE_PATH "new" "orig"
      rfl rfl (by decide) (by decide)⟩

/-- C4: a protected-file mutation refused by validation yields a blocked
result with a diagnostic message and leaves the filesystem untouched, in
each of the three refusal cases: the capability flag disabled (dispatcher
short-circuit, message in the reason key), a requested path that does not
resolve to the protected file, and a missing protected file. -/
theorem C4_validation_blocked :
    (∀ (ar : Bool) (os : OSOracle) (fs : FS) (a : Action),
        a.type = some "modify_engine" →
        dispatchOne ar false os fs a =
          .ok ({ rtype := "modify_engine", status := some "blocked",
                 reason := some "ALLOW_MODIFY_ENGINE=False no driver.py" }, fs)) ∧
    (∀ (resolve : String → String) (exec : Exec) (ts : String) (fs : FS)
        (path new_content : String),
        resolve path ≠ resolve ENGINE_PATH →
        safe_modify_engine_backtest resolve exec ts fs path new_content =
          ({ path := path, status := "blocked",
             error := some "safe_modify_engine_backtest chamado para arquivo que não é engine/backtest.py." },
           fs)) ∧
    (∀ (resolve : String → String) (exec : Exec) (ts : String) (fs : FS)
        (path new_content : String),
        resolve path = resolve ENGINE_PATH →
        fs ENGINE_PATH = none →
        safe_modify_engine_backtest resolve exec ts fs path new_content =
          ({ path := ENGINE_PATH, status := "blocked",
             error := some "engine/backtest.py não encontrado para modificação segura." },
           fs)) := by
  refine ⟨?_, ?_, ?_⟩
  · intro ar os fs a h
    simp [dispatchOne, h]
  · intro resolve exec ts fs path new_content h
    simp [safe_modify_engine_backtest, h]
  · intro resolve exec ts fs path new_content h hnone
    simp [safe_modify_engine_backtest, h, hnone]

/-- Witness for C4: the three refusal cases at concrete inputs. -/
theorem C4_witness :
    ({ type := some "modify_engine", path := some "engine/backtest.py",
       content := some "c" } : Action).type = some "modify_engine" ∧
    dispatchOne true false osNoop fsWithEngine
        { type := some "modify_engine", path := some "engine/backtest.py", content := some "c" } =
      .ok ({ rtype := "modify_engine", status := some "blocked",
             reason := some "ALLOW_MODIFY_ENGINE=False no driver.py" }, fsWithEngine) ∧
    (id "strategies/x.py" : String) ≠ id ENGINE_PATH ∧
    safe_modify_engine_backtest id execAllOk "t" fsWithEngine "strategies/x.py" "new" =
      ({ path := "strategies/x.py", status := "blocked",
         error := some "safe_modify_engine_backtest chamado para arquivo que não é engine/backtest.py." },
       fsWithEngine) ∧
    (id ENGINE_PATH : String) = id ENGINE_PATH ∧
    fsEmpty ENGINE_PATH = none ∧
    safe_modify_engine_backtest id execAllOk "t" fsEmpty ENGINE_PATH "new" =
      ({ path := ENGINE_PATH, status := "blocked",
         error := some "engine/backtest.py não encontrado para modificação segura." },
       fsEmpty) :=
  ⟨rfl,
    C4_validation_blocked.1 true osNoop fsWithEngine
      { type := some "modify_engine", path := some "engine/backtest.py", content := some "c" } rfl,
    by decide,
    C4_validation_blocked.2.1 id execAllOk "t" fsWithEngine "strategies/x.py" "new" (by decide),
    rfl, rfl,
    C4_validation_blocked.2.2 id execAllOk "t" fsEmpty ENGINE_PATH "new" rfl rfl⟩


/-- C2 fails on the code: a batch whose first action is a whitelisted
run_command aborts with a TypeError escaping execute_actions (driver.py
line 376 passes a cwd keyword argument that run_command does not accept),
so the second action never runs and no result list is returned. -/
theorem C2_allowed_run_command_aborts_batch :
    batchErr (execute_actions ALLOW_RUN_COMMANDS ALLOW_MODIFY_ENGINE osNoop fsWithEngine
        [runBacktestAction, listDotAction]) =
      some (PyExc.typeError "run_command() got an unexpected keyword argument cwd") := by
  decide

/-- C5 fails on the code: dispatching a run_command action whose command
starts with an allowed prefix raises the TypeError of driver.py line 376
instead of executing the subprocess and capturing its output. -/
theorem C5_allowed_run_command_raises :
    errOf (dispatchOne ALLOW_RUN_COMMANDS ALLOW_MODIFY_ENGINE osNoop fsWithEngine runBacktestAction) =
      some (PyExc.typeError "run_command() got an unexpected keyword argument cwd") := by
  decide

/-- C6: a run_command action whose trimmed command is non-empty and starts
with no allowed prefix is answered, with command execution enabled, by a
blocked result whose diagnostic names the requested command and whose fixed
part enumerates every allowed prefix; the dispatch returns normally with
the filesystem untouched and no subprocess fields set. -/
theorem C6_unlisted_command_blocked (am : Bool) (os : OSOracle) (fs : FS)
    (a : Action)
    (h : a.type = some "run_command")
    (hne : pyStrip (a.command.getD "") ≠ "")
    (hnp : (allowed_prefixes.any fun p => pyStartsWith (pyStrip (a.command.getD "")) p) = false) :
    dispatchOne true am os fs a =
      .ok ({ rtype := "run_command", command := some (pyStrip (a.command.getD "")),
             status := some "blocked",
             error := some (blockedCommandMsg (pyStrip (a.command.getD ""))) }, fs) ∧
    blockedCommandMsg (pyStrip (a.command.getD "")) =
      blockedCommandHeader ++ pyStrip (a.command.getD "") ∧
    (allowed_prefixes.all fun p => hasSub blockedCommandHeader p) = true := by
  refine ⟨?_, rfl, by decide⟩
  simp [dispatchOne, h, hne, hnp]

/-- Witness for C6: a concrete non-whitelisted command. -/
theorem C6_witness :
    ({ type := some "run_command", command := some " ls -la " } : Action).type
        = some "run_command" ∧
    pyStrip (({ type := some "run_command", command := some " ls -la " } : Action).command.getD "") ≠ "" ∧
    (allowed_prefixes.any fun p =>
        pyStartsWith
          (pyStrip (({ type := some "run_command", command := some " ls -la " } : Action).command.getD "")) p)
      = false ∧
    (dispatchOne true true osNoop fsWithEngine
        { type := some "run_command", command := some " ls -la " } =
      .ok ({ rtype := "run_command",
             command := some (pyStrip
               (({ type := some "run_command", command := some " ls -la " } : Action).command.getD "")),
             status := some "blocked",
             error := some (blockedCommandMsg (pyStrip
               (({ type := some "run_command", command := some " ls -la " } : Action).command.getD ""))) },
           fsWithEngine) ∧
     blockedCommandMsg
         (pyStrip (({ type := some "run_command", command := some " ls -la " } : Action).command.getD "")) =
       blockedCommandHeader ++
         pyStrip (({ type := some "run_command", command := some " ls -la " } : Action).command.getD "") ∧
     (allowed_prefixes.all fun p => hasSub blockedCommandHeader p) = true) :=
  ⟨rfl, by decide, by decide,
    C6_unlisted_command_blocked true osNoop fsWithEngine
      { type := some "run_command", command := some " ls -la " } rfl (by decide) (by decide)⟩

/-- C7: the write_file handler requires a non-empty path (missing-path
error otherwise), creates the intermediate directories of the path via the
makedirs call and overwrites the target unconditionally with the given
content on success, and converts a raised OS error from makedirs or from
opening the file into an error result with the filesystem unchanged. -/
theorem C7_write_file_contract (ar am : Bool) (os : OSOracle) (fs : FS) :
    (∀ a : Action, a.type = some "write_file" → (a.path = none ∨ a.path = some "") →
        dispatchOne ar am os fs a =
          .ok ({ rtype := "write_file", error := some "missing path" }, fs)) ∧
    (∀ (a : Action) (p : String), a.type = some "write_file" → a.path = some p → p ≠ "" →
        os.mkdirs fs (dirname p) = none → os.openW fs p = none →
        dispatchOne ar am os fs a =
          .ok ({ rtype := "write_file", path := some p, status := some "ok" },
               setFile fs p (a.content.getD ""))) ∧
    (∀ (a : Action) (p e : String), a.type = some "write_file" → a.path = some p → p ≠ "" →
        os.mkdirs fs (dirname p) = some e →
        dispatchOne ar am os fs a =
          .ok ({ rtype := "write_file", path := some p, error := some e }, fs)) ∧
    (∀ (a : Action) (p e : String), a.type = some "write_file" → a.path = some p → p ≠ "" →
        os.mkdirs fs (dirname p) = none → os.openW fs p = some e →
        dispatchOne ar am os fs a =
          .ok ({ rtype := "write_file", path := some p, error := some e }, fs)) := by
  refine ⟨?_, ?_, ?_, ?_⟩
  · intro a h hp
    rcases hp with hp | hp <;> simp [dispatchOne, h, hp]
  · intro a p h hp hne hmk hop
    simp [dispatchOne, h, hp, hne, hmk, hop]
  · intro a p e h hp hne hmk
    simp [dispatchOne, h, hp, hne, hmk]
  · intro a p e h hp hne hmk hop
    simp [dispatchOne, h, hp, hne, hmk, hop]

/-- Witness for C7: a concrete write with directory creation, a missing
path, and a failing makedirs call. -/
theorem C7_witness :
    ({ type := some "write_file" } : Action).type = some "write_file" ∧
    ({ type := some "write_file" } : Action).path = none ∧
    dispatchOne true true osNoop fsWithEngine { type := some "write_file" } =
      .ok ({ rtype := "write_file", error := some "missing path" }, fsWithEngine) ∧
    ({ type := some "write_file", path := some "logs/user_actions.md",
       content := some "resumo" } : Action).path = some "logs/user_actions.md" ∧
    ("logs/user_actions.md" : String) ≠ "" ∧
    osNoop.mkdirs fsWithEngine (dirname "logs/user_actions.md") = none ∧
    osNoop.openW fsWithEngine "logs/user_actions.md" = none ∧
    dispatchOne true true osNoop fsWithEngine
        { type := some "write_file", path := some "logs/user_actions.md", content := some "resumo" } =
      .ok ({ rtype := "write_file", path := some "logs/user_actions.md", status := some "ok" },
           setFile fsWithEngine "logs/user_actions.md"
             (({ type := some "write_file", path := some "logs/user_actions.md",
                 content := some "resumo" } : Action).content.getD "")) ∧
    osMkdirFail.mkdirs fsWithEngine (dirname "logs/user_actions.md") = some "mkdir boom" ∧
    dispatchOne true true osMkdirFail fsWithEngine
        { type := some "write_file", path := some "logs/user_actions.md", content := some "resumo" } =
      .ok ({ rtype := "write_file", path := some "logs/user_actions.md", error := some "mkdir boom" },
           fsWithEngine) :=
  ⟨rfl, rfl,
    (C7_write_file_contract true true osNoop fsWithEngine).1
      { type := some "write_file" } rfl (Or.inl rfl),
    rfl, by decide, rfl, rfl,
    (C7_write_file_contract true true osNoop fsWithEngine).2.1
      { type := some "write_file", path := some "logs/user_actions.md", content := some "resumo" }
      "logs/user_actions.md" rfl rfl (by decide) rfl rfl,
    rfl,
    (C7_write_file_contract true true osMkdirFail fsWithEngine).2.2.1
      { type := some "write_file", path := some "logs/user_actions.md", content := some "resumo" }
      "logs/user_actions.md" "mkdir boom" rfl rfl (by decide) rfl⟩


/-- C8: an action whose type is none of the five recognized variants is
answered by exactly one error result echoing the raw action payload, the
filesystem is unchanged, and the rest of the batch still runs. -/
theorem C8_unknown_action_error (ar am : Bool) (os : OSOracle) (fs : FS)
    (a : Action)
    (h1 : a.type ≠ some "list_dir") (h2 : a.type ≠ some "read_file")
    (h3 : a.type ≠ some "write_file") (h4 : a.type ≠ some "modify_engine")
    (h5 : a.type ≠ some "run_command") :
    dispatchOne ar am os fs a = .ok (unknownResult a, fs) ∧
    (unknownResult a).status = some "error" ∧
    (unknownResult a).raw_action = some a ∧
    ∀ rest, execute_actions ar am os fs (a :: rest) =
      (execute_actions ar am os fs rest).map fun p => (unknownResult a :: p.1, p.2) := by
  have hd : dispatchOne ar am os fs a = .ok (unknownResult a, fs) := by
    simp [dispatchOne, h1, h2, h3, h4, h5]
  refine ⟨hd, rfl, rfl, ?_⟩
  intro rest
  simp only [execute_actions, hd]
  cases hrest : execute_actions ar am os fs rest with
  | error e => simp [Except.map]
  | ok p => cases p; simp [Except.map]

/-- Witness for C8: a concrete unrecognized action followed by one more
action that still runs. -/
theorem C8_witness :
    ({ type := some "foo" } : Action).type ≠ some "list_dir" ∧
    ({ type := some "foo" } : Action).type ≠ some "read_file" ∧
    ({ type := some "foo" } : Action).type ≠ some "write_file" ∧
    ({ type := some "foo" } : Action).type ≠ some "modify_engine" ∧
    ({ type := some "foo" } : Action).type ≠ some "run_command" ∧
    (dispatchOne true true osNoop fsWithEngine { type := some "foo" } =
        .ok (unknownResult { type := some "foo" }, fsWithEngine) ∧
     (unknownResult { type := some "foo" }).status = some "error" ∧
     (unknownResult { type := some "foo" }).raw_action = some { type := some "foo" }) ∧
    execute_actions true true osNoop fsWithEngine ({ type := some "foo" } :: [listDotAction]) =
      (execute_actions true true osNoop fsWithEngine [listDotAction]).map
        fun p => (unknownResult { type := some "foo" } :: p.1, p.2) :=
  ⟨by decide, by decide, by decide, by decide, by decide,
    ⟨(C8_unknown_action_error true true osNoop fsWithEngine { type := some "foo" }
        (by decide) (by decide) (by decide) (by decide) (by decide)).1,
     (C8_unknown_action_error true true osNoop fsWithEngine { type := some "foo" }
        (by decide) (by decide) (by decide) (by decide) (by decide)).2.1,
     (C8_unknown_action_error true true osNoop fsWithEngine { type := some "foo" }
        (by decide) (by decide) (by decide) (by decide) (by decide)).2.2.1⟩,
    (C8_unknown_action_error true true osNoop fsWithEngine { type := some "foo" }
        (by decide) (by decide) (by decide) (by decide) (by decide)).2.2.2 [listDotAction]⟩

/-- C9: with the mutation capability enabled, dispatching a modify_engine
action (path a string or absent) yields a single error-status result with
no stage and no backup path, and the filesystem — protected file included —
is returned unchanged: the guard call fails on path.resolve before the
backup protocol starts and the handler converts it to the error result. -/
theorem C9_modify_engine_dispatch_error (ar : Bool) (os : OSOracle) (fs : FS)
    (a : Action) (h : a.type = some "modify_engine") :
    dispatchOne ar true os fs a = .ok (modifyEngineErrorResult a, fs) ∧
    (modifyEngineErrorResult a).status = some "error" ∧
    (modifyEngineErrorResult a).stage = none ∧
    (modifyEngineErrorResult a).backup_path = none ∧
    (modifyEngineErrorResult a).rtype = "modify_engine" := by
  refine ⟨?_, rfl, rfl, rfl, rfl⟩
  simp [dispatchOne, h]

/-- Witness for C9: a concrete modify_engine action aimed at the protected
file itself. -/
theorem C9_witness :
    ({ type := some "modify_engine", path := some "engine/backtest.py",
       content := some "c" } : Action).type = some "modify_engine" ∧
    (dispatchOne true true osNoop fsWithEngine
        { type := some "modify_engine", path := some "engine/backtest.py", content := some "c" } =
      .ok (modifyEngineErrorResult
             { type := some "modify_engine", path := some "engine/backtest.py", content := some "c" },
           fsWithEngine) ∧
     (modifyEngineErrorResult
        { type := some "modify_engine", path := some "engine/backtest.py", content := some "c" }).status
        = some "error" ∧
     (modifyEngineErrorResult
        { type := some "modify_engine", path := some "engine/backtest.py", content := some "c" }).stage
        = none ∧
     (modifyEngineErrorResult
        { type := some "modify_engine", path := some "engine/backtest.py", content := some "c" }).backup_path
        = none ∧
     (modifyEngineErrorResult
        { type := some "modify_engine", path := some "engine/backtest.py", content := some "c" }).rtype
        = "modify_engine") :=
  ⟨rfl,
    C9_modify_engine_dispatch_error true osNoop fsWithEngine
      { type := some "modify_engine", path := some "engine/backtest.py", content := some "c" } rfl⟩

/-- C10: a list_dir action without a path is not rejected: dispatch
substitutes the default path dot and answers with the sorted listing of the
working directory, whereas read_file and write_file answer a missing-path
error result when the path is absent. -/
theorem C10_list_dir_default_path (ar am : Bool) (os : OSOracle) (fs : FS) :
    (∀ (a : Action) (items : List String), a.type = some "list_dir" → a.path = none →
        os.listdir fs "." = .ok items →
        dispatchOne ar am os fs a =
          .ok ({ rtype := "list_dir", path := some ".",
                 items := some (sortStrings items) }, fs)) ∧
    (∀ a : Action, a.type = some "read_file" → a.path = none →
        dispatchOne ar am os fs a =
          .ok ({ rtype := "read_file", error := some "missing path" }, fs)) ∧
    (∀ a : Action, a.type = some "write_file" → a.path = none →
        dispatchOne ar am os fs a =
          .ok ({ rtype := "write_file", error := some "missing path" }, fs)) := by
  refine ⟨?_, ?_, ?_⟩
  · intro a items h hp hl
    simp [dispatchOne, h, hp, hl]
  · intro a h hp
    simp [dispatchOne, h, hp]
  · intro a h hp
    simp [dispatchOne, h, hp]

/-- Witness for C10: a pathless list_dir against a two-entry working
directory, and pathless read_file and write_file actions. -/
theorem C10_witness :
    ({ type := some "list_dir" } : Action).type = some "list_dir" ∧
    ({ type := some "list_dir" } : Action).path = none ∧
    osList.listdir fsWithEngine "." = .ok ["b", "a"] ∧
    dispatchOne true true osList fsWithEngine { type := some "list_dir" } =
      .ok ({ rtype := "list_dir", path := some ".",
             items := some (sortStrings ["b", "a"]) }, fsWithEngine) ∧
    ({ type := some "read_file" } : Action).type = some "read_file" ∧
    dispatchOne true true osList fsWithEngine { type := some "read_file" } =
      .ok ({ rtype := "read_file", error := some "missing path" }, fsWithEngine) ∧
    ({ type := some "write_file" } : Action).type = some "write_file" ∧
    dispatchOne true true osList fsWithEngine { type := some "write_file" } =
      .ok ({ rtype := "write_file", error := some "missing path" }, fsWithEngine) :=
  ⟨rfl, rfl, rfl,
    (C10_list_dir_default_path true true osList fsWithEngine).1
      { type := some "list_dir" } ["b", "a"] rfl rfl rfl,
    rfl,
    (C10_list_dir_default_path true true osList fsWithEngine).2.1
      { type := some "read_file" } rfl rfl,
    rfl,
    (C10_list_dir_default_path true true osList fsWithEngine).2.2
      { type := some "write_file" } rfl rfl⟩

end Driver
